import Mathlib

/-!
Shallow embedding of the video-translation polling client
(`video-translation-client/client.js`) and the data it exchanges with the
status server.  The client's `waitForCompletion` loop is modelled as a
fuel-indexed step function over an explicit execution state; wall-clock time
is an explicit integer that advances by transport durations and sleeps.
-/

namespace VideoTranslation

/-- The hint object handed to a polling strategy.  `remainingSeconds` is
`none` when the field is absent or not a number (the JS code checks
`typeof serverHint.remainingSeconds === 'number'`). -/
structure ServerHint where
  remainingSeconds : Option Int := none
deriving Repr, DecidableEq

/-- A polling strategy: `(attempt, previousDelay, serverHint) -> nextDelay`. -/
abbrev Strategy := Nat → Int → ServerHint → Int

/-- The function `defaultPollingStrategy` from client.js: return 1000 when the hint's
`remainingSeconds` is a number strictly below 5, otherwise double the
previous delay. -/
def defaultPollingStrategy (attempt : Nat) (previousDelay : Int)
    (serverHint : ServerHint) : Int :=
  match serverHint.remainingSeconds with
  | some r => if r < 5 then 1000 else previousDelay * 2
  | none => previousDelay * 2

/-- The parsed JSON body returned by a successful `getStatus` call:
`{ result, remainingSeconds }`.  `result` is free text at this boundary. -/
structure ServerResponse where
  result : String
  remainingSeconds : Option Int := none
deriving Repr, DecidableEq

/-- One transport interaction, indexed by call count: how much wall-clock
time the call consumes, and either a parsed body (`some`) or a thrown
transport error (`none`, the `catch` path of `getStatus`). -/
structure TransportCall where
  dur : Int := 0
  resp : Option ServerResponse
deriving Repr, DecidableEq

/-- The options bag accepted by the `VideoTranslationClient` constructor;
`none` models an absent key (the `??` defaults apply). -/
structure Options where
  initialDelay : Option Int := none
  maxAttempts : Option Nat := none
  pollingStrategy : Option Strategy := none
  maxDurationMs : Option Int := none
  token : Option String := none

/-- The `VideoTranslationClient` instance: configuration fields plus the
mutable bookkeeping fields `attempt`, `currentDelay`, `startTime`. -/
structure VideoTranslationClient where
  baseUrl : String
  initialDelay : Int
  maxAttempts : Nat
  pollingStrategy : Strategy
  maxDurationMs : Int
  token : Option String
  attempt : Nat
  currentDelay : Int
  startTime : Int

/-- The constructor: apply the `??` defaults and initialise the bookkeeping
fields, recording `Date.now()` at construction time as `startTime`. -/
def VideoTranslationClient.new (baseUrl : String) (options : Options)
    (constructionTime : Int) : VideoTranslationClient :=
  { baseUrl := baseUrl
    initialDelay := options.initialDelay.getD 1000
    maxAttempts := options.maxAttempts.getD 10
    pollingStrategy := options.pollingStrategy.getD defaultPollingStrategy
    maxDurationMs := options.maxDurationMs.getD 30000
    token := options.token
    attempt := 0
    currentDelay := options.initialDelay.getD 1000
    startTime := constructionTime }

/-- A thrown JavaScript `Error` value: `new Error(message)` sets only the
message; the `name` property is the default `"Error"`. -/
structure JsError where
  name : String
  message : String
deriving Repr, DecidableEq

/-- The expression `new Error(message)`. -/
def newError (message : String) : JsError := ⟨"Error", message⟩

/-- Message thrown when the time budget is exceeded (client.js line 70). -/
def timeoutMessage (maxDurationMs : Int) : String :=
  "[ERROR] Timed out after " ++ toString maxDurationMs ++ "ms without completion."

/-- Message thrown inside the transport-failure `catch` when the attempt
budget is already spent (client.js line 81). -/
def exhaustedTransportMessage (maxAttempts : Nat) : String :=
  "[ERROR] Max attempts (" ++ toString maxAttempts ++ ") reached with repeated errors."

/-- Message thrown when the server reports the `error` result (line 102). -/
def remoteErrorMessage : String :=
  "[ERROR] Server returned \"error\" status."

/-- Message thrown when the loop exits by attempt exhaustion (line 114). -/
def exhaustedPendingMessage (maxAttempts : Nat) : String :=
  "[ERROR] Max attempts (" ++ toString maxAttempts ++ ") reached without completion."

/-- Execution state of one `waitForCompletion` run: the client instance
(`this`), the current wall-clock time, the number of transport calls made,
and the chronological log of `_sleep` arguments. -/
structure Exec where
  client : VideoTranslationClient
  now : Int
  calls : Nat
  sleeps : List Int

/-- The statement `await this._sleep(ms)`: the argument is logged as passed; `setTimeout`
treats a negative delay as zero, so time advances by `max ms 0`. -/
def sleepExec (ex : Exec) (ms : Int) : Exec :=
  { ex with now := ex.now + max ms 0, sleeps := ex.sleeps ++ [ms] }

/-- Result of one iteration of the `while` loop: terminate with a value or
a thrown error, or continue with an updated state. -/
inductive StepResult where
  | done (value : Except JsError String) (ex : Exec)
  | next (ex : Exec)

/-- The state carried out of a step, whether it terminated or not. -/
def StepResult.exec : StepResult → Exec
  | .done _ ex => ex
  | .next ex => ex

/-- One iteration of `waitForCompletion`'s `while` loop (client.js lines
66-111), including the loop guard itself and the post-loop throw:
check the guard `attempt < maxAttempts`; check the time budget; issue one
transport call; on a thrown transport error keep `attempt` unchanged, sleep
`currentDelay`, and recompute the delay with an empty hint; on a parsed body
increment `attempt`, then return on `completed`, throw on `error`, and
otherwise sleep and recompute the delay with the body's `remainingSeconds`
as hint. -/
def pollStep (transport : Nat → TransportCall) (ex : Exec) : StepResult :=
  let c := ex.client
  if c.attempt < c.maxAttempts then
    if ex.now - c.startTime > c.maxDurationMs then
      .done (.error (newError (timeoutMessage c.maxDurationMs))) ex
    else
      let call := transport ex.calls
      match call.resp with
      | none =>
        let ex1 : Exec := { ex with now := ex.now + call.dur, calls := ex.calls + 1 }
        if c.maxAttempts ≤ c.attempt then
          .done (.error (newError (exhaustedTransportMessage c.maxAttempts))) ex1
        else
          let ex2 := sleepExec ex1 c.currentDelay
          let newDelay := c.pollingStrategy c.attempt c.currentDelay ⟨none⟩
          .next { ex2 with client := { ex2.client with currentDelay := newDelay } }
      | some resp =>
        let c1 : VideoTranslationClient := { c with attempt := c.attempt + 1 }
        let ex2 : Exec := { ex with
          now := ex.now + call.dur
          calls := ex.calls + 1
          client := c1 }
        if resp.result = "completed" then
          .done (.ok "completed") ex2
        else if resp.result = "error" then
          .done (.error (newError remoteErrorMessage)) ex2
        else
          let ex3 := sleepExec ex2 c.currentDelay
          let newDelay := c.pollingStrategy (c.attempt + 1) c.currentDelay ⟨resp.remainingSeconds⟩
          .next { ex3 with client := { ex3.client with currentDelay := newDelay } }
  else
    .done (.error (newError (exhaustedPendingMessage c.maxAttempts))) ex

/-- Iterate `pollStep` until termination or until the fuel runs out
(`none` in the first component means the fuel ran out first). -/
def waitLoop : Nat → (Nat → TransportCall) → Exec → Option (Except JsError String) × Exec
  | 0, _, ex => (none, ex)
  | fuel + 1, transport, ex =>
    match pollStep transport ex with
    | .done v ex1 => (some v, ex1)
    | .next ex1 => waitLoop fuel transport ex1

/-- The method `waitForCompletion()`, entered at wall-clock time `now` on a given
client instance: run the loop from a fresh execution record (the call logs
and call counter start empty; the client state is whatever the instance
holds). -/
def waitForCompletion (fuel : Nat) (transport : Nat → TransportCall)
    (now : Int) (client : VideoTranslationClient) :
    Option (Except JsError String) × Exec :=
  waitLoop fuel transport { client := client, now := now, calls := 0, sleeps := [] }

/-- Two client instances agree on every configuration field and on
`startTime`; only the bookkeeping fields `attempt` and `currentDelay` may
differ. -/
def sameConfig (a b : VideoTranslationClient) : Prop :=
  a.baseUrl = b.baseUrl ∧ a.initialDelay = b.initialDelay ∧
  a.maxAttempts = b.maxAttempts ∧ a.pollingStrategy = b.pollingStrategy ∧
  a.maxDurationMs = b.maxDurationMs ∧ a.token = b.token ∧
  a.startTime = b.startTime

/-- A strategy that never returns a negative delay. -/
def nonnegStrategy (s : Strategy) : Prop :=
  ∀ (a : Nat) (p : Int) (h : ServerHint), 0 ≤ s a p h

/-- A transport whose every call throws (e.g. connection refused). -/
def failTransport : Nat → TransportCall := fun _ => { dur := 0, resp := none }

/-- A transport whose every call parses to `pending` with ten seconds
remaining. -/
def pendTransport : Nat → TransportCall :=
  fun _ => { dur := 0, resp := some { result := "pending", remainingSeconds := some 10 } }

/-- A transport whose every call parses to a body whose `result` is the
unknown tag `"bananas"`. -/
def garbageTransport : Nat → TransportCall :=
  fun _ => { dur := 0, resp := some { result := "bananas" } }

/-- A transport whose every call parses to the `error` result. -/
def errorTransport : Nat → TransportCall :=
  fun _ => { dur := 0, resp := some { result := "error" } }

/-- A client constructed at time 0 with `maxAttempts = 3`, defaults
otherwise. -/
def clientMax3 : VideoTranslationClient :=
  VideoTranslationClient.new "http://localhost:3000" { maxAttempts := some 3 } 0

/-- A client constructed at time 0 with `maxAttempts = 2`, defaults
otherwise. -/
def clientMax2 : VideoTranslationClient :=
  VideoTranslationClient.new "http://localhost:3000" { maxAttempts := some 2 } 0

/-- A client constructed at time 0 with `maxAttempts = 1`, defaults
otherwise. -/
def clientMax1 : VideoTranslationClient :=
  VideoTranslationClient.new "http://localhost:3000" { maxAttempts := some 1 } 0

/-- A client whose custom strategy always returns the negative delay -5. -/
def clientNegStrategy : VideoTranslationClient :=
  VideoTranslationClient.new "http://localhost:3000"
    { maxAttempts := some 2, pollingStrategy := some (fun _ _ _ => -5) } 0

/-- A client whose custom strategy always returns the constant delay 7. -/
def clientConstStrategy : VideoTranslationClient :=
  VideoTranslationClient.new "http://localhost:3000"
    { maxAttempts := some 2, pollingStrategy := some (fun _ _ _ => 7) } 0

theorem sameConfig_refl (a : VideoTranslationClient) : sameConfig a a :=
  ⟨rfl, rfl, rfl, rfl, rfl, rfl, rfl⟩

theorem sameConfig_trans {a b c : VideoTranslationClient}
    (h1 : sameConfig a b) (h2 : sameConfig b c) : sameConfig a c := by
  obtain ⟨e1, e2, e3, e4, e5, e6, e7⟩ := h1
  obtain ⟨f1, f2, f3, f4, f5, f6, f7⟩ := h2
  exact ⟨e1.trans f1, e2.trans f2, e3.trans f3, e4.trans f4,
    e5.trans f5, e6.trans f6, e7.trans f7⟩

/-- One loop iteration never changes a configuration field or `startTime`. -/
theorem pollStep_sameConfig (t : Nat → TransportCall) (ex : Exec) :
    sameConfig (StepResult.exec (pollStep t ex)).client ex.client := by
  unfold pollStep
  dsimp only
  repeat' split
  all_goals simp [sameConfig, StepResult.exec, sleepExec]

/-- The whole loop never changes a configuration field or `startTime`. -/
theorem waitLoop_sameConfig (fuel : Nat) (t : Nat → TransportCall) (ex : Exec) :
    sameConfig (waitLoop fuel t ex).2.client ex.client := by
  induction fuel generalizing ex with
  | zero => exact sameConfig_refl _
  | succ n ih =>
    have hstep := pollStep_sameConfig t ex
    simp only [waitLoop]
    cases h : pollStep t ex with
    | done v ex1 =>
      rw [h] at hstep
      simpa [StepResult.exec] using hstep
    | next ex1 =>
      rw [h] at hstep
      simp only [StepResult.exec] at hstep
      exact sameConfig_trans (ih ex1) hstep

/-- One loop iteration keeps `attempt ≤ maxAttempts`. -/
theorem pollStep_attempt_le (t : Nat → TransportCall) (ex : Exec)
    (h : ex.client.attempt ≤ ex.client.maxAttempts) :
    (StepResult.exec (pollStep t ex)).client.attempt ≤
      (StepResult.exec (pollStep t ex)).client.maxAttempts := by
  unfold pollStep
  dsimp only
  repeat' split
  all_goals simp_all [StepResult.exec, sleepExec]
  all_goals omega

/-- The whole loop keeps `attempt ≤ maxAttempts`. -/
theorem waitLoop_attempt_le (fuel : Nat) (t : Nat → TransportCall) (ex : Exec)
    (h : ex.client.attempt ≤ ex.client.maxAttempts) :
    (waitLoop fuel t ex).2.client.attempt ≤
      (waitLoop fuel t ex).2.client.maxAttempts := by
  induction fuel generalizing ex with
  | zero => exact h
  | succ n ih =>
    have hstep := pollStep_attempt_le t ex h
    simp only [waitLoop]
    cases hp : pollStep t ex with
    | done v ex1 =>
      rw [hp] at hstep
      simpa [StepResult.exec] using hstep
    | next ex1 =>
      rw [hp] at hstep
      simp only [StepResult.exec] at hstep
      exact ih ex1 hstep

/-- One loop iteration keeps the current delay and every logged sleep
non-negative, provided the configured strategy never goes negative. -/
theorem pollStep_nonneg (t : Nat → TransportCall) (ex : Exec)
    (hs : nonnegStrategy ex.client.pollingStrategy)
    (hd : 0 ≤ ex.client.currentDelay)
    (hl : ∀ x ∈ ex.sleeps, 0 ≤ x) :
    0 ≤ (StepResult.exec (pollStep t ex)).client.currentDelay ∧
      ∀ x ∈ (StepResult.exec (pollStep t ex)).sleeps, 0 ≤ x := by
  unfold pollStep
  dsimp only
  repeat' split
  all_goals simp_all [StepResult.exec, sleepExec, nonnegStrategy]
  all_goals
    intro x hx
    rcases hx with hx | hx
    exacts [hl x hx, hx ▸ hd]

/-- The whole loop keeps the current delay and every logged sleep
non-negative, provided the configured strategy never goes negative. -/
theorem waitLoop_nonneg (fuel : Nat) (t : Nat → TransportCall) (ex : Exec)
    (hs : nonnegStrategy ex.client.pollingStrategy)
    (hd : 0 ≤ ex.client.currentDelay)
    (hl : ∀ x ∈ ex.sleeps, 0 ≤ x) :
    0 ≤ (waitLoop fuel t ex).2.client.currentDelay ∧
      ∀ x ∈ (waitLoop fuel t ex).2.sleeps, 0 ≤ x := by
  induction fuel generalizing ex with
  | zero => exact ⟨hd, hl⟩
  | succ n ih =>
    have hcfg := pollStep_sameConfig t ex
    have hstep := pollStep_nonneg t ex hs hd hl
    simp only [waitLoop]
    cases hp : pollStep t ex with
    | done v ex1 =>
      rw [hp] at hstep
      simpa [StepResult.exec] using hstep
    | next ex1 =>
      rw [hp, StepResult.exec] at hstep hcfg
      exact ih ex1 (hcfg.2.2.2.1 ▸ hs) hstep.1 hstep.2

/-- When one loop iteration terminates with a thrown error, that error is
a plain `Error` carrying one of the four failure messages, built from the
entering state's configuration. -/
theorem pollStep_error_shape (t : Nat → TransportCall) (ex : Exec)
    (e : JsError) (ex1 : Exec)
    (h : pollStep t ex = .done (.error e) ex1) :
    e.name = "Error" ∧
      (e.message = timeoutMessage ex.client.maxDurationMs ∨
        e.message = exhaustedTransportMessage ex.client.maxAttempts ∨
        e.message = remoteErrorMessage ∨
        e.message = exhaustedPendingMessage ex.client.maxAttempts) := by
  unfold pollStep at h
  dsimp only at h
  repeat' split at h
  all_goals simp_all [newError]
  all_goals
    obtain ⟨he, hex⟩ := h
    subst he
    subst hex
    simp_all

/-- When the whole loop terminates with a thrown error, that error is a
plain `Error` carrying one of the four failure messages, built from the
initial state's configuration. -/
theorem waitLoop_error_shape (fuel : Nat) (t : Nat → TransportCall) (ex : Exec)
    (e : JsError) (h : (waitLoop fuel t ex).1 = some (.error e)) :
    e.name = "Error" ∧
      (e.message = timeoutMessage ex.client.maxDurationMs ∨
        e.message = exhaustedTransportMessage ex.client.maxAttempts ∨
        e.message = remoteErrorMessage ∨
        e.message = exhaustedPendingMessage ex.client.maxAttempts) := by
  induction fuel generalizing ex with
  | zero => simp [waitLoop] at h
  | succ n ih =>
    have hcfg := pollStep_sameConfig t ex
    rw [waitLoop] at h
    cases hp : pollStep t ex with
    | done v ex1 =>
      rw [hp] at h
      dsimp only at h
      injection h with h1
      subst h1
      exact pollStep_error_shape t ex e ex1 hp
    | next ex1 =>
      rw [hp] at h
      dsimp only at h
      rw [hp, StepResult.exec] at hcfg
      have := ih ex1 h
      rw [hcfg.2.2.1, hcfg.2.2.2.2.1] at this
      exact this

/-- When the loop guard admits another attempt and the elapsed time
strictly exceeds the budget, the iteration throws the timeout error with
the execution state untouched. -/
theorem waitLoop_timeout (fuel : Nat) (t : Nat → TransportCall) (ex : Exec)
    (h1 : ex.client.attempt < ex.client.maxAttempts)
    (h2 : ex.client.maxDurationMs < ex.now - ex.client.startTime) :
    waitLoop (fuel + 1) t ex =
      (some (.error (newError (timeoutMessage ex.client.maxDurationMs))), ex) := by
  rw [waitLoop]
  unfold pollStep
  dsimp only
  rw [if_pos h1, if_pos h2]

/-- When the loop guard already fails on entry, the run throws the
pending-exhaustion error at once, with the execution state untouched. -/
theorem waitLoop_exhausted (fuel : Nat) (t : Nat → TransportCall) (ex : Exec)
    (h : ex.client.maxAttempts ≤ ex.client.attempt) :
    waitLoop (fuel + 1) t ex =
      (some (.error (newError (exhaustedPendingMessage ex.client.maxAttempts))), ex) := by
  rw [waitLoop]
  unfold pollStep
  dsimp only
  rw [if_neg (Nat.not_lt.2 h)]

/-- Claim C1: evaluating the code at the claim's scenario — a transport
that throws on every call and `maxAttempts = 3` with default settings —
shows the attempt counter is never incremented on a transport failure, so
the exhausted-with-transport-errors exit never fires: the run makes five
transport calls with sleeps 1000, 2000, 4000, 8000 and 16000 ms between
them and finally throws the timeout error, instead of failing with the
transport-exhaustion error after exactly three calls. -/
theorem c1_transport_failures_never_counted :
    (waitForCompletion 10 failTransport 0 clientMax3).1 =
      some (.error (newError (timeoutMessage 30000))) ∧
    (waitForCompletion 10 failTransport 0 clientMax3).2.calls = 5 ∧
    (waitForCompletion 10 failTransport 0 clientMax3).2.client.attempt = 0 ∧
    (waitForCompletion 10 failTransport 0 clientMax3).2.sleeps =
      [1000, 2000, 4000, 8000, 16000] :=
  ⟨rfl, rfl, rfl, rfl⟩

/-- Claim C2 counterexample: state is not fresh per call.  A first call on
a two-attempt client ends with the instance's `attempt` equal to 2, and a
second sequential call on the same instance then throws the
pending-exhaustion error immediately, issuing zero transport calls instead
of polling afresh; moreover a first call that begins at time 40000 on a
client constructed at time 0 times out on its first iteration with zero
transport calls, because elapsed time is measured from construction, not
from the start of the call. -/
theorem c2_counterexample :
    (waitForCompletion 10 pendTransport 0 clientMax2).2.client.attempt = 2 ∧
    (waitForCompletion 10 pendTransport 3000
        (waitForCompletion 10 pendTransport 0 clientMax2).2.client).1 =
      some (.error (newError (exhaustedPendingMessage 2))) ∧
    (waitForCompletion 10 pendTransport 3000
        (waitForCompletion 10 pendTransport 0 clientMax2).2.client).2.calls = 0 ∧
    (waitForCompletion 10 pendTransport 40000 clientMax2).1 =
      some (.error (newError (timeoutMessage 30000))) ∧
    (waitForCompletion 10 pendTransport 40000 clientMax2).2.calls = 0 :=
  ⟨rfl, rfl, rfl, rfl, rfl⟩

/-- Claim C2 amended: the bookkeeping state is initialised by the
constructor — `attempt = 0`, `currentDelay = initialDelay`, `startTime` =
construction time — and is never reset by `waitForCompletion`, so state
persists across sequential calls: a call entered with `attempt` already at
the budget throws the pending-exhaustion error at once with zero transport
calls and the persisted counter unchanged, and elapsed time is measured
against the construction-time `startTime`, so a call beginning past the
budget times out on its first iteration. -/
theorem c2_state_persists_across_calls (url : String) (opts : Options)
    (tc : Int) (fuel : Nat) (t : Nat → TransportCall) (now : Int)
    (c c' : VideoTranslationClient)
    (hc : c.maxAttempts ≤ c.attempt)
    (hc1 : c'.attempt < c'.maxAttempts)
    (hc2 : c'.maxDurationMs < now - c'.startTime) :
    ((VideoTranslationClient.new url opts tc).attempt = 0 ∧
      (VideoTranslationClient.new url opts tc).currentDelay =
        opts.initialDelay.getD 1000 ∧
      (VideoTranslationClient.new url opts tc).startTime = tc) ∧
    ((waitForCompletion (fuel + 1) t now c).1 =
        some (.error (newError (exhaustedPendingMessage c.maxAttempts))) ∧
      (waitForCompletion (fuel + 1) t now c).2.calls = 0 ∧
      (waitForCompletion (fuel + 1) t now c).2.client.attempt = c.attempt) ∧
    (waitForCompletion (fuel + 1) t now c').1 =
      some (.error (newError (timeoutMessage c'.maxDurationMs))) := by
  refine ⟨⟨rfl, rfl, rfl⟩, ?_, ?_⟩
  · unfold waitForCompletion
    rw [waitLoop_exhausted fuel t _ hc]
    exact ⟨rfl, rfl, rfl⟩
  · unfold waitForCompletion
    rw [waitLoop_timeout fuel t _ hc1 hc2]

/-- Witness for the amended claim C2, at the concrete instance left behind
by a first exhausted call and at a fresh client called 40000 ms after its
construction at time 0. -/
theorem c2_state_persists_across_calls_witness :
    ((waitForCompletion 10 pendTransport 0 clientMax2).2.client.maxAttempts ≤
        (waitForCompletion 10 pendTransport 0 clientMax2).2.client.attempt ∧
      clientMax2.attempt < clientMax2.maxAttempts ∧
      clientMax2.maxDurationMs < (40000 : Int) - clientMax2.startTime) ∧
    (((VideoTranslationClient.new "u" {} 0).attempt = 0 ∧
      (VideoTranslationClient.new "u" {} 0).currentDelay =
        (({} : Options).initialDelay).getD 1000 ∧
      (VideoTranslationClient.new "u" {} 0).startTime = 0) ∧
    ((waitForCompletion (9 + 1) pendTransport 40000
          (waitForCompletion 10 pendTransport 0 clientMax2).2.client).1 =
        some (.error (newError (exhaustedPendingMessage
          (waitForCompletion 10 pendTransport 0 clientMax2).2.client.maxAttempts))) ∧
      (waitForCompletion (9 + 1) pendTransport 40000
          (waitForCompletion 10 pendTransport 0 clientMax2).2.client).2.calls = 0 ∧
      (waitForCompletion (9 + 1) pendTransport 40000
          (waitForCompletion 10 pendTransport 0 clientMax2).2.client).2.client.attempt =
        (waitForCompletion 10 pendTransport 0 clientMax2).2.client.attempt) ∧
    (waitForCompletion (9 + 1) pendTransport 40000 clientMax2).1 =
      some (.error (newError (timeoutMessage clientMax2.maxDurationMs)))) :=
  ⟨⟨by decide, by decide, by decide⟩,
    c2_state_persists_across_calls "u" {} 0 9 pendTransport 40000
      (waitForCompletion 10 pendTransport 0 clientMax2).2.client clientMax2
      (by decide) (by decide) (by decide)⟩

/-- Claim C3 counterexample: the thrown values of two different failure
kinds (timeout at the default budget, and remote error) agree on every
`Error` field except `message` — overwriting the one message with the
other yields the very same error value — so nothing but message string
content can tell the kinds apart. -/
theorem c3_counterexample :
    ({ newError (timeoutMessage 30000) with message := remoteErrorMessage } :
        JsError) = newError remoteErrorMessage ∧
    newError (timeoutMessage 30000) ≠ newError remoteErrorMessage :=
  ⟨rfl, by decide⟩

/-- Claim C3 amended: every failing exit of `waitForCompletion` throws a
plain `Error` (name "Error") whose message is one of the four failure
messages built from the run's configuration — timeout, transport
exhaustion, remote error, pending exhaustion — and at the default
configuration those four messages are pairwise distinct, so the kinds are
distinguishable, but only by message string content. -/
theorem c3_error_kinds (fuel : Nat) (t : Nat → TransportCall) (now : Int)
    (c : VideoTranslationClient) (e : JsError)
    (h : (waitForCompletion fuel t now c).1 = some (.error e)) :
    (e.name = "Error" ∧
      (e.message = timeoutMessage c.maxDurationMs ∨
        e.message = exhaustedTransportMessage c.maxAttempts ∨
        e.message = remoteErrorMessage ∨
        e.message = exhaustedPendingMessage c.maxAttempts)) ∧
    (timeoutMessage 30000 ≠ exhaustedTransportMessage 10 ∧
      timeoutMessage 30000 ≠ remoteErrorMessage ∧
      timeoutMessage 30000 ≠ exhaustedPendingMessage 10 ∧
      exhaustedTransportMessage 10 ≠ remoteErrorMessage ∧
      exhaustedTransportMessage 10 ≠ exhaustedPendingMessage 10 ∧
      remoteErrorMessage ≠ exhaustedPendingMessage 10) :=
  ⟨waitLoop_error_shape fuel t ⟨c, now, 0, []⟩ e h,
    by decide, by decide, by decide, by decide, by decide, by decide⟩

/-- Witness for the amended claim C3, at a pending-exhaustion run. -/
theorem c3_error_kinds_witness :
    (waitForCompletion 10 pendTransport 0 clientMax2).1 =
      some (.error (newError (exhaustedPendingMessage 2))) ∧
    (((newError (exhaustedPendingMessage 2)).name = "Error" ∧
      ((newError (exhaustedPendingMessage 2)).message =
          timeoutMessage clientMax2.maxDurationMs ∨
        (newError (exhaustedPendingMessage 2)).message =
          exhaustedTransportMessage clientMax2.maxAttempts ∨
        (newError (exhaustedPendingMessage 2)).message = remoteErrorMessage ∨
        (newError (exhaustedPendingMessage 2)).message =
          exhaustedPendingMessage clientMax2.maxAttempts)) ∧
    (timeoutMessage 30000 ≠ exhaustedTransportMessage 10 ∧
      timeoutMessage 30000 ≠ remoteErrorMessage ∧
      timeoutMessage 30000 ≠ exhaustedPendingMessage 10 ∧
      exhaustedTransportMessage 10 ≠ remoteErrorMessage ∧
      exhaustedTransportMessage 10 ≠ exhaustedPendingMessage 10 ∧
      remoteErrorMessage ≠ exhaustedPendingMessage 10)) :=
  ⟨rfl, c3_error_kinds 10 pendTransport 0 clientMax2
    (newError (exhaustedPendingMessage 2)) rfl⟩

/-- Claim C4 counterexample: a transport body whose `result` is the
unknown tag "bananas", on a one-attempt client, is NOT treated as a
transport-level parse failure: the run counts the attempt, sleeps 1000 ms,
and exits with the pending-exhaustion error — exactly the pending
treatment, which the transport-failure path (which leaves `attempt`
untouched and would end in the transport-exhaustion error) never gives. -/
theorem c4_counterexample :
    (waitForCompletion 10 garbageTransport 0 clientMax1).1 =
      some (.error (newError (exhaustedPendingMessage 1))) ∧
    (waitForCompletion 10 garbageTransport 0 clientMax1).2.client.attempt = 1 ∧
    (waitForCompletion 10 garbageTransport 0 clientMax1).2.sleeps = [1000] ∧
    (waitForCompletion 10 garbageTransport 0 clientMax1).2.calls = 1 :=
  ⟨rfl, rfl, rfl, rfl⟩

/-- Claim C4 amended: any parsed response whose `result` is neither
"completed" nor "error" — whatever other value it holds — is treated as
pending: the iteration increments `attempt`, sleeps the current delay, and
recomputes the delay through the strategy with the response's
`remainingSeconds` as hint, then continues the loop. -/
theorem c4_unknown_result_is_pending (t : Nat → TransportCall) (ex : Exec)
    (resp : ServerResponse)
    (h1 : ex.client.attempt < ex.client.maxAttempts)
    (h2 : ¬ ex.client.maxDurationMs < ex.now - ex.client.startTime)
    (h3 : (t ex.calls).resp = some resp)
    (h4 : resp.result ≠ "completed") (h5 : resp.result ≠ "error") :
    ∃ ex1, pollStep t ex = .next ex1 ∧
      ex1.calls = ex.calls + 1 ∧
      ex1.client.attempt = ex.client.attempt + 1 ∧
      ex1.sleeps = ex.sleeps ++ [ex.client.currentDelay] ∧
      ex1.client.currentDelay =
        ex.client.pollingStrategy (ex.client.attempt + 1) ex.client.currentDelay
          ⟨resp.remainingSeconds⟩ := by
  unfold pollStep
  dsimp only
  rw [if_pos h1, if_neg h2, h3]
  dsimp only
  rw [if_neg h4, if_neg h5]
  exact ⟨_, rfl, rfl, rfl, rfl, rfl⟩

/-- Witness for the amended claim C4, at the "bananas" response. -/
theorem c4_unknown_result_is_pending_witness :
    (clientMax1.attempt < clientMax1.maxAttempts ∧
      ¬ clientMax1.maxDurationMs < (0 : Int) - clientMax1.startTime ∧
      (garbageTransport 0).resp = some { result := "bananas" } ∧
      ({ result := "bananas" } : ServerResponse).result ≠ "completed" ∧
      ({ result := "bananas" } : ServerResponse).result ≠ "error") ∧
    ∃ ex1, pollStep garbageTransport
        { client := clientMax1, now := 0, calls := 0, sleeps := [] } = .next ex1 ∧
      ex1.calls = 0 + 1 ∧
      ex1.client.attempt =
        (Exec.client { client := clientMax1, now := 0, calls := 0, sleeps := [] }).attempt + 1 ∧
      ex1.sleeps = ([] : List Int) ++ [clientMax1.currentDelay] ∧
      ex1.client.currentDelay =
        clientMax1.pollingStrategy (clientMax1.attempt + 1) clientMax1.currentDelay
          ⟨({ result := "bananas" } : ServerResponse).remainingSeconds⟩ :=
  ⟨⟨by decide, by decide, rfl, by decide, by decide⟩,
    c4_unknown_result_is_pending garbageTransport
      { client := clientMax1, now := 0, calls := 0, sleeps := [] }
      { result := "bananas" } (by decide) (by decide) rfl (by decide) (by decide)⟩

/-- Claim C5: in any iteration entered within the attempt budget, the
elapsed time is checked at the top, before any transport call: when it
strictly exceeds `maxDurationMs` the run fails with the timeout error and
the execution state — in particular the transport-call counter — is left
untouched, whatever the transport behaviour. -/
theorem c5_timeout_checked_before_request (fuel : Nat)
    (t : Nat → TransportCall) (ex : Exec)
    (h1 : ex.client.attempt < ex.client.maxAttempts)
    (h2 : ex.client.maxDurationMs < ex.now - ex.client.startTime) :
    waitLoop (fuel + 1) t ex =
      (some (.error (newError (timeoutMessage ex.client.maxDurationMs))), ex) :=
  waitLoop_timeout fuel t ex h1 h2

/-- Witness for claim C5: a client constructed at time 0, polled at time
40000, times out at once with zero transport calls. -/
theorem c5_timeout_checked_before_request_witness :
    (clientMax2.attempt < clientMax2.maxAttempts ∧
      clientMax2.maxDurationMs < (40000 : Int) - clientMax2.startTime) ∧
    waitLoop (0 + 1) pendTransport
        { client := clientMax2, now := 40000, calls := 0, sleeps := [] } =
      (some (.error (newError (timeoutMessage clientMax2.maxDurationMs))),
        { client := clientMax2, now := 40000, calls := 0, sleeps := [] }) :=
  ⟨⟨by decide, by decide⟩,
    c5_timeout_checked_before_request 0 pendTransport
      { client := clientMax2, now := 40000, calls := 0, sleeps := [] }
      (by decide) (by decide)⟩

/-- Claim C6: when the transport reports `completed` the run returns the
literal "completed" immediately, and when it reports `error` the run
throws the remote-error failure immediately — in both cases with no sleep
(the sleep log is unchanged), exactly one transport call consumed, and no
retry — whatever the attempt number, including the very first. -/
theorem c6_completed_error_terminal (fuel : Nat) (t : Nat → TransportCall)
    (ex : Exec) (resp : ServerResponse)
    (h1 : ex.client.attempt < ex.client.maxAttempts)
    (h2 : ¬ ex.client.maxDurationMs < ex.now - ex.client.startTime)
    (h3 : (t ex.calls).resp = some resp)
    (h4 : resp.result = "completed" ∨ resp.result = "error") :
    (waitLoop (fuel + 1) t ex).1 =
      (if resp.result = "completed" then some (.ok "completed")
        else some (.error (newError remoteErrorMessage))) ∧
    (waitLoop (fuel + 1) t ex).2.sleeps = ex.sleeps ∧
    (waitLoop (fuel + 1) t ex).2.calls = ex.calls + 1 ∧
    (waitLoop (fuel + 1) t ex).2.client.attempt = ex.client.attempt + 1 := by
  simp only [waitLoop]
  unfold pollStep
  dsimp only
  rw [if_pos h1, if_neg h2, h3]
  dsimp only
  rcases h4 with hc | hc
  · rw [if_pos hc, hc]
    exact ⟨rfl, rfl, rfl, rfl⟩
  · have hne : resp.result ≠ "completed" := by rw [hc]; decide
    rw [if_neg hne, if_pos hc, if_neg hne]
    exact ⟨rfl, rfl, rfl, rfl⟩

/-- Witness for claim C6: the first response already reports `error`. -/
theorem c6_completed_error_terminal_witness :
    (clientMax3.attempt < clientMax3.maxAttempts ∧
      ¬ clientMax3.maxDurationMs < (0 : Int) - clientMax3.startTime ∧
      (errorTransport 0).resp = some { result := "error" } ∧
      (({ result := "error" } : ServerResponse).result = "completed" ∨
        ({ result := "error" } : ServerResponse).result = "error")) ∧
    ((waitLoop (0 + 1) errorTransport
        { client := clientMax3, now := 0, calls := 0, sleeps := [] }).1 =
      (if ({ result := "error" } : ServerResponse).result = "completed"
        then some (.ok "completed")
        else some (.error (newError remoteErrorMessage))) ∧
    (waitLoop (0 + 1) errorTransport
        { client := clientMax3, now := 0, calls := 0, sleeps := [] }).2.sleeps =
      ([] : List Int) ∧
    (waitLoop (0 + 1) errorTransport
        { client := clientMax3, now := 0, calls := 0, sleeps := [] }).2.calls = 0 + 1 ∧
    (waitLoop (0 + 1) errorTransport
        { client := clientMax3, now := 0, calls := 0, sleeps := [] }).2.client.attempt =
      clientMax3.attempt + 1) :=
  ⟨⟨by decide, by decide, rfl, Or.inr rfl⟩,
    c6_completed_error_terminal 0 errorTransport
      { client := clientMax3, now := 0, calls := 0, sleeps := [] }
      { result := "error" } (by decide) (by decide) rfl (Or.inr rfl)⟩

/-- Claim C7: the default strategy returns the 1000 ms floor exactly when
the hint carries a numeric `remainingSeconds` strictly below 5, and
doubles the previous delay otherwise (no numeric value, or a value of at
least 5); in particular a previous delay of 1000 with no hint gives 2000,
and a hint of 3 seconds gives 1000 whatever the previous delay. -/
theorem c7_default_strategy_spec (a : Nat) (p : Int) (r : Int) :
    (r < 5 → defaultPollingStrategy a p ⟨some r⟩ = 1000) ∧
    (5 ≤ r → defaultPollingStrategy a p ⟨some r⟩ = p * 2) ∧
    defaultPollingStrategy a p ⟨none⟩ = p * 2 ∧
    defaultPollingStrategy a 1000 ⟨none⟩ = 2000 ∧
    defaultPollingStrategy a p ⟨some 3⟩ = 1000 := by
  refine ⟨fun h => ?_, fun h => ?_, rfl, rfl, ?_⟩
  · simp [defaultPollingStrategy, h]
  · simp [defaultPollingStrategy, not_lt.2 h]
  · simp [defaultPollingStrategy]

/-- Witness for claim C7 at `attempt = 0`, `previousDelay = 7000`, and the
hints 3 and 9. -/
theorem c7_default_strategy_spec_witness :
    ((3 : Int) < 5 ∧ defaultPollingStrategy 0 7000 ⟨some 3⟩ = 1000) ∧
    ((5 : Int) ≤ 9 ∧ defaultPollingStrategy 0 7000 ⟨some 9⟩ = 7000 * 2) :=
  ⟨⟨by decide, (c7_default_strategy_spec 0 7000 3).1 (by decide)⟩,
    ⟨by decide, (c7_default_strategy_spec 0 7000 9).2.1 (by decide)⟩⟩

/-- Claim C8: for every configuration, transport behaviour, starting time
and fuel, a run entered with the attempt counter within the budget — in
particular any run on a freshly constructed client — terminates (or runs
out of fuel) with `attempt ≤ maxAttempts`. -/
theorem c8_attempt_within_budget (fuel : Nat) (t : Nat → TransportCall)
    (now : Int) (c : VideoTranslationClient)
    (h : c.attempt ≤ c.maxAttempts) :
    (waitForCompletion fuel t now c).2.client.attempt ≤ c.maxAttempts := by
  have h1 := waitLoop_attempt_le fuel t ⟨c, now, 0, []⟩ h
  have h2 := (waitLoop_sameConfig fuel t ⟨c, now, 0, []⟩).2.2.1
  unfold waitForCompletion
  rw [h2] at h1
  exact h1

/-- Witness for claim C8 at a pending-exhaustion run. -/
theorem c8_attempt_within_budget_witness :
    clientMax2.attempt ≤ clientMax2.maxAttempts ∧
    (waitForCompletion 10 pendTransport 0 clientMax2).2.client.attempt ≤
      clientMax2.maxAttempts :=
  ⟨by decide, c8_attempt_within_budget 10 pendTransport 0 clientMax2 (by decide)⟩

/-- Claim C9 counterexample: with a custom strategy that returns -5 and an
always-pending transport, the second iteration passes -5 to `_sleep` and
the instance's `currentDelay` ends at -5: a negative strategy return is
used as-is, never clamped to a non-negative floor. -/
theorem c9_counterexample :
    (waitForCompletion 10 pendTransport 0 clientNegStrategy).2.sleeps =
      [1000, -5] ∧
    (waitForCompletion 10 pendTransport 0 clientNegStrategy).2.client.currentDelay =
      -5 ∧
    (waitForCompletion 10 pendTransport 0 clientNegStrategy).1 =
      some (.error (newError (exhaustedPendingMessage 2))) :=
  ⟨rfl, rfl, rfl⟩

/-- Claim C9 amended: no clamping exists — `currentDelay` is exactly the
strategy's return value — so the delay and every `_sleep` argument of a
run are non-negative precisely under the extra hypotheses that the
configured strategy never returns a negative value and the starting delay
is non-negative. -/
theorem c9_nonneg_needs_nonneg_strategy (fuel : Nat)
    (t : Nat → TransportCall) (now : Int) (c : VideoTranslationClient)
    (hs : nonnegStrategy c.pollingStrategy)
    (hd : 0 ≤ c.currentDelay) :
    0 ≤ (waitForCompletion fuel t now c).2.client.currentDelay ∧
    ∀ x ∈ (waitForCompletion fuel t now c).2.sleeps, 0 ≤ x :=
  waitLoop_nonneg fuel t ⟨c, now, 0, []⟩ hs hd (by simp)

/-- Witness for the amended claim C9, at a constant strategy returning 7. -/
theorem c9_nonneg_needs_nonneg_strategy_witness :
    (nonnegStrategy clientConstStrategy.pollingStrategy ∧
      (0 : Int) ≤ clientConstStrategy.currentDelay) ∧
    (0 ≤ (waitForCompletion 5 pendTransport 0 clientConstStrategy).2.client.currentDelay ∧
      ∀ x ∈ (waitForCompletion 5 pendTransport 0 clientConstStrategy).2.sleeps, 0 ≤ x) :=
  ⟨⟨fun _ _ _ => (by decide : (0 : Int) ≤ 7), by decide⟩,
    c9_nonneg_needs_nonneg_strategy 5 pendTransport 0 clientConstStrategy
      (fun _ _ _ => (by decide : (0 : Int) ≤ 7)) (by decide)⟩

/-- Claim C10: a `waitForCompletion` run never modifies the instance's
configuration — `baseUrl`, `initialDelay`, `maxAttempts`,
`pollingStrategy`, `maxDurationMs`, `token` — nor `startTime`: the only
instance fields it can change are `attempt` and `currentDelay`. -/
theorem c10_config_frame (fuel : Nat) (t : Nat → TransportCall)
    (now : Int) (c : VideoTranslationClient) :
    (waitForCompletion fuel t now c).2.client.baseUrl = c.baseUrl ∧
    (waitForCompletion fuel t now c).2.client.initialDelay = c.initialDelay ∧
    (waitForCompletion fuel t now c).2.client.maxAttempts = c.maxAttempts ∧
    (waitForCompletion fuel t now c).2.client.pollingStrategy = c.pollingStrategy ∧
    (waitForCompletion fuel t now c).2.client.maxDurationMs = c.maxDurationMs ∧
    (waitForCompletion fuel t now c).2.client.token = c.token ∧
    (waitForCompletion fuel t now c).2.client.startTime = c.startTime :=
  waitLoop_sameConfig fuel t ⟨c, now, 0, []⟩

end VideoTranslation
